import Mathlib

/-!
Shallow embedding of the notebook cell widgets in
`src/packages/cells/src/widget.ts`: the base `Cell` view state and its
editable-state synchronization with metadata, the `CodeCell` input/output
visibility machinery and the `CodeCell.execute` orchestration, and the
`MarkdownCell` rendered-input update. Store writes are modelled as an
explicit event trace so that transaction boundaries and kernel submissions
are observable.
-/

namespace JupyterCells

/-- A JSON-like metadata value as stored in a cell record's metadata map. -/
inductive JsonVal where
  | bool (b : Bool)
  | str (s : String)
  | num (n : Int)
  deriving DecidableEq, Repr

/-- JavaScript truthiness of a metadata value, as used by the
`if (args.current[key])` guards in the metadata-change handlers. -/
def JsonVal.truthy : JsonVal → Bool
  | .bool b => b
  | .str s => !(s == "")
  | .num n => !(n == 0)

/-- A metadata map: an association list from keys to values. An absent key
means the field is unset; writing `null` through the store removes the key. -/
abbrev Metadata := List (String × JsonVal)

namespace DatastoreExt

/-- Remove a key from a metadata map. -/
def removeKey (md : Metadata) (k : String) : Metadata :=
  md.filter (fun p => !(p.1 == k))

/-- `DatastoreExt.getField` restricted to one metadata key: the value of
`k` in the metadata map, or `none` when absent. -/
def getField (md : Metadata) (k : String) : Option JsonVal :=
  (md.find? (fun p => p.1 == k)).map Prod.snd

/-- `DatastoreExt.updateField` on the metadata map: `some v` sets the key,
`none` (the JavaScript `null`) removes it. -/
def updateField (md : Metadata) (k : String) (v : Option JsonVal) : Metadata :=
  match v with
  | some x => (k, x) :: removeKey md k
  | none => removeKey md k

end DatastoreExt

/-- A single field write performed inside a datastore transaction. -/
inductive StoreOp where
  | setExecutionCount (v : Option Int)
  | setMetadataKey (k : String) (v : Option JsonVal)
  | setTrusted (b : Bool)
  | clearOutputs
  deriving DecidableEq, Repr

/-- An observable effect of a cell operation, in order of occurrence.
`txn` is one `DatastoreExt.withTransaction` block with its field writes;
the `view` events are widget-local mutations that involve no store
transaction; `kernelSubmit` is the `OutputArea.execute` submission. -/
inductive Event where
  | txn (ops : List StoreOp)
  | viewSetOutputHidden (b : Bool)
  | viewSetPrompt (s : String)
  | kernelSubmit (code : String)
  deriving DecidableEq, Repr

/-- The number of store transactions in an event trace. -/
def txnCount (evs : List Event) : Nat :=
  evs.countP (fun e => match e with | .txn _ => true | _ => false)

/-- The view state of the base `Cell` widget: the read-only flag, the
input-hidden flag with the attachment status of the input widget and the
input placeholder inside the input wrapper, the two sync flags, and the
input prompt text. -/
structure CellView where
  readOnly : Bool
  inputHidden : Bool
  inputAttached : Bool
  placeholderAttached : Bool
  syncCollapse : Bool
  syncEditable : Bool
  prompt : String
  deriving DecidableEq, Repr

namespace Cell

/-- `Cell.saveEditableState`: push the view's read-only flag into metadata
key `editable` with the tri-state encoding, guarded by an early return when
the model already matches. Returns the updated metadata and the event
trace (one transaction when a write happens, nothing otherwise). -/
def saveEditableState (readOnly : Bool) (md : Metadata) : Metadata × List Event :=
  let current := DatastoreExt.getField md "editable"
  if (readOnly && current == some (JsonVal.bool false)) ||
      (!readOnly && current == none) then
    (md, [])
  else if readOnly then
    (DatastoreExt.updateField md "editable" (some (JsonVal.bool false)),
      [Event.txn [StoreOp.setMetadataKey "editable" (some (JsonVal.bool false))]])
  else
    (DatastoreExt.updateField md "editable" none,
      [Event.txn [StoreOp.setMetadataKey "editable" none]])

/-- The `Cell.readOnly` setter: early return when unchanged, otherwise set
the internal flag and, when `syncEditable` is enabled, save to metadata. -/
def setReadOnly (st : CellView) (md : Metadata) (value : Bool) :
    CellView × Metadata × List Event :=
  if value == st.readOnly then
    (st, md, [])
  else
    let st := { st with readOnly := value }
    if st.syncEditable then
      let r := saveEditableState value md
      (st, r.1, r.2)
    else
      (st, md, [])

/-- `Cell.loadEditableState`: pull the read-only flag from metadata key
`editable` (read-only exactly when the stored value is `false`). -/
def loadEditableState (st : CellView) (md : Metadata) :
    CellView × Metadata × List Event :=
  setReadOnly st md (DatastoreExt.getField md "editable" == some (JsonVal.bool false))

/-- `Cell.saveCollapseState`: its body is commented out in the source, so
it performs no store writes. -/
def saveCollapseState : List Event := []

/-- `Cell.loadCollapseState`: its body is commented out in the source, so
it leaves the view state unchanged. -/
def loadCollapseState (st : CellView) (md : Metadata) : CellView := st

/-- The `Cell.inputHidden` setter on the base class: early return when
unchanged, otherwise swap the input widget and the input placeholder in the
input wrapper and record the new flag. `saveCollapseState` and the base
`handleInputHidden` hook have no effect on the modelled state. -/
def setInputHidden (st : CellView) (value : Bool) : CellView :=
  if st.inputHidden == value then
    st
  else
    let st :=
      if value then
        { st with inputAttached := false, placeholderAttached := true }
      else
        { st with placeholderAttached := false, inputAttached := true }
    { st with inputHidden := value }

end Cell

/-- The `current` part of a `MapField.Change` delivered to metadata-change
handlers: the changed keys mapped to their new values, where `none` encodes
the JavaScript `null` used to signal a removed key. -/
abbrev ChangeMap := List (String × Option JsonVal)

/-- JavaScript truthiness of `args.current[k]`: `false` for an untouched
key, a removed key (`null`), or a falsy new value. -/
def changeTruthy (args : ChangeMap) (k : String) : Bool :=
  match (args.find? (fun p => p.1 == k)).map Prod.snd with
  | some (some v) => v.truthy
  | _ => false

namespace Cell

/-- `Cell.onMetadataChanged`: the `jupyter` branch calls
`loadCollapseState`, which is a no-op, so only the `editable` branch can
change the modelled state, and only when `args.current.editable` is truthy
and `syncEditable` is on. -/
def onMetadataChanged (st : CellView) (md : Metadata) (args : ChangeMap) :
    CellView × Metadata × List Event :=
  let st := if changeTruthy args "jupyter" && st.syncCollapse then loadCollapseState st md else st
  if changeTruthy args "editable" then
    if st.syncEditable then loadEditableState st md else (st, md, [])
  else
    (st, md, [])

end Cell

/-- The view state of a `CodeCell` widget: the base cell view plus the
output-hidden flag with the attachment status of the output area and the
output placeholder inside the output wrapper, the hidden flag of the output
wrapper itself, the scrolled state with its sync flag, and the
`_savingMetadata` reentrancy guard. -/
structure CodeCellView where
  base : CellView
  outputHidden : Bool
  outputAttached : Bool
  outputPlaceholderAttached : Bool
  outputWrapperHidden : Bool
  outputsScrolled : Bool
  syncScrolled : Bool
  savingMetadata : Bool
  deriving DecidableEq, Repr

namespace CodeCell

/-- `CodeCell.handleInputHidden`: the next hidden state of the output
wrapper given the new input-hidden value, the current wrapper hidden state
and the current output-hidden flag. Showing the input always shows the
wrapper; hiding the input hides the wrapper only when the outputs are also
hidden. -/
def handleInputHidden (value wrapperHidden outputHidden : Bool) : Bool :=
  if !value && wrapperHidden then false
  else if value && !wrapperHidden && outputHidden then true
  else wrapperHidden

/-- The `inputHidden` setter as it behaves on a `CodeCell`: the base-class
setter whose `handleInputHidden` hook is the `CodeCell` override above. -/
def setInputHidden (st : CodeCellView) (value : Bool) : CodeCellView :=
  if st.base.inputHidden == value then
    st
  else
    let st := { st with base := Cell.setInputHidden st.base value }
    { st with outputWrapperHidden :=
        handleInputHidden value st.outputWrapperHidden st.outputHidden }

/-- The `CodeCell.outputHidden` setter: early return when unchanged;
hiding swaps in the output placeholder and also hides the whole output
wrapper when the input is hidden too; showing first re-shows the wrapper if
hidden, then swaps the output area back in. `saveCollapseState` is a
no-op. -/
def setOutputHidden (st : CodeCellView) (value : Bool) : CodeCellView :=
  if st.outputHidden == value then
    st
  else
    let st :=
      if value then
        let st := { st with outputAttached := false, outputPlaceholderAttached := true }
        if st.base.inputHidden && !st.outputWrapperHidden then
          { st with outputWrapperHidden := true }
        else st
      else
        let st :=
          if st.outputWrapperHidden then { st with outputWrapperHidden := false } else st
        { st with outputPlaceholderAttached := false, outputAttached := true }
    { st with outputHidden := value }

/-- `CodeCell.saveScrolledState`: its body is commented out in the source,
so it performs no store writes. -/
def saveScrolledState : List Event := []

/-- `CodeCell.loadScrolledState`: its body is commented out in the source,
so it leaves the view state unchanged whatever the metadata holds. -/
def loadScrolledState (st : CodeCellView) (md : Metadata) : CodeCellView := st

/-- `CodeCell.loadCollapseState`: its body is commented out in the source,
so it leaves the view state unchanged. -/
def loadCollapseState (st : CodeCellView) (md : Metadata) : CodeCellView := st

/-- The `CodeCell.outputsScrolled` setter: record the flag (the CSS class
toggle is presentation only) and, when `syncScrolled` is on, call
`saveScrolledState`. Returns the new view and the store event trace. -/
def setOutputsScrolled (st : CodeCellView) (value : Bool) : CodeCellView × List Event :=
  let st := { st with outputsScrolled := value }
  if st.syncScrolled then (st, saveScrolledState) else (st, [])

/-- The `CodeCell.syncScrolled` setter: early return when unchanged;
enabling triggers `loadScrolledState`. -/
def setSyncScrolled (st : CodeCellView) (md : Metadata) (value : Bool) : CodeCellView :=
  if st.syncScrolled == value then
    st
  else
    let st := { st with syncScrolled := value }
    if value then loadScrolledState st md else st

/-- `CodeCell.onMetadataChanged`: return immediately while
`_savingMetadata` is set; otherwise run the `scrolled` and `collapsed`
branches (whose load functions are no-ops) and then the base-class
handler. -/
def onMetadataChanged (st : CodeCellView) (md : Metadata) (args : ChangeMap) :
    CodeCellView × Metadata × List Event :=
  if st.savingMetadata then
    (st, md, [])
  else
    let st :=
      if changeTruthy args "scrolled" && st.syncScrolled then loadScrolledState st md else st
    let st :=
      if changeTruthy args "collapsed" && st.base.syncCollapse then loadCollapseState st md else st
    let r := Cell.onMetadataChanged st.base md args
    ({ st with base := r.1 }, r.2.1, r.2.2)

end CodeCell

/-- The fields of the cell record consumed by `CodeCell.execute`: the
source text held by the editor model, the metadata map, the execution
count, the trusted flag, and the outputs collection. -/
structure CellRecord where
  sourceText : String
  metadata : Metadata
  executionCount : Option Int
  trusted : Bool
  outputs : List String
  deriving DecidableEq, Repr

/-- How the `OutputArea.execute` promise settles: a reply message carrying
`content.execution_count`, or a rejection carrying an error message. -/
inductive KernelOutcome where
  | reply (execution_count : Option Int)
  | error (message : String)
  deriving DecidableEq, Repr

/-- What `CodeCell.execute` does at the end: return `undefined`, return
the reply message (tracked by its execution count), or throw the error. -/
inductive ExecuteResult where
  | returnUndefined
  | returnMsg (execution_count : Option Int)
  | throwErr (message : String)
  deriving DecidableEq, Repr

/-- Whether `code.trim()` is the empty string — the `!code.trim()` guard of
`CodeCell.execute`. Trimming leading and trailing whitespace yields the
empty string exactly when every character of the source is whitespace. -/
def isBlank (s : String) : Bool := s.toList.all Char.isWhitespace

namespace CodeCell

/-- `CodeCell.execute`. `kernelLive` models `session.kernel` being truthy;
`outcome` is the settlement of the `OutputArea.execute` promise;
`stillCurrent` models whether `cell.outputArea.future === future` holds
when the catch block runs (a later submission may have replaced the
future). Returns the updated record, the updated view, the ordered event
trace, and the call's result. -/
def execute (record : CellRecord) (view : CodeCellView) (kernelLive : Bool)
    (outcome : KernelOutcome) (stillCurrent : Bool) :
    CellRecord × CodeCellView × List Event × ExecuteResult :=
  let code := record.sourceText
  if isBlank code || !kernelLive then
    ({ record with executionCount := none, outputs := [] }, view,
      [Event.txn [StoreOp.setExecutionCount none, StoreOp.clearOutputs]],
      ExecuteResult.returnUndefined)
  else
    let view := setOutputHidden view false
    let view := { view with base := { view.base with prompt := "*" } }
    let record := { record with executionCount := none, trusted := true }
    let pre : List Event :=
      [Event.viewSetOutputHidden false, Event.viewSetPrompt "*",
        Event.txn [StoreOp.setExecutionCount none, StoreOp.setTrusted true],
        Event.kernelSubmit code]
    match outcome with
    | KernelOutcome.reply ec =>
        ({ record with executionCount := ec }, view,
          pre ++ [Event.txn [StoreOp.setExecutionCount ec]],
          ExecuteResult.returnMsg ec)
    | KernelOutcome.error msg =>
        if msg == "Canceled" && stillCurrent then
          ({ record with executionCount := none },
            { view with base := { view.base with prompt := "" } },
            pre ++ [Event.viewSetPrompt ""],
            ExecuteResult.throwErr msg)
        else
          ({ record with executionCount := none }, view, pre,
            ExecuteResult.throwErr msg)

end CodeCell

/-- The text applied to an empty markdown cell. -/
def DEFAULT_MARKDOWN_TEXT : String := "Type Markdown and LaTeX: $ α^2 $"

/-- The state `MarkdownCell` keeps across rendered-input updates: the
last-rendered text and whether the lazy renderer has been created. -/
structure MarkdownRenderState where
  prevText : String
  rendererCreated : Bool
  deriving DecidableEq, Repr

/-- The effect of one rendered-input update: skip (a resolved promise with
no render work), or an asynchronous `renderModel` call on a mime bundle,
recording whether the renderer was created by this call. -/
inductive RenderAction where
  | skip
  | render (mimeType : String) (text : String) (createdRenderer : Bool)
  deriving DecidableEq, Repr

namespace MarkdownCell

/-- `MarkdownCell._updateRenderedInput` (its source name carries a leading
underscore): substitute the placeholder text for an empty source, skip when
the text equals the last-rendered text, otherwise create the renderer on
first use and render the text as a `text/markdown` mime bundle. -/
def updateRenderedInput (st : MarkdownRenderState) (sourceValue : String) :
    MarkdownRenderState × RenderAction :=
  let text := if sourceValue = "" then DEFAULT_MARKDOWN_TEXT else sourceValue
  if text ≠ st.prevText then
    ({ prevText := text, rendererCreated := true },
      RenderAction.render "text/markdown" text (!st.rendererCreated))
  else
    (st, RenderAction.skip)

end MarkdownCell

/-- A base cell view as constructed: input shown and attached, nothing
synced, empty prompt. -/
def cellView0 : CellView :=
  { readOnly := false, inputHidden := false, inputAttached := true,
    placeholderAttached := false, syncCollapse := false, syncEditable := false,
    prompt := "" }

/-- A code cell view as constructed: output shown and attached, wrapper
visible, nothing synced. -/
def codeView0 : CodeCellView :=
  { base := cellView0, outputHidden := false, outputAttached := true,
    outputPlaceholderAttached := false, outputWrapperHidden := false,
    outputsScrolled := false, syncScrolled := false, savingMetadata := false }

/-- A record with blank source text. -/
def recordBlank : CellRecord :=
  { sourceText := "  ", metadata := [], executionCount := some 1,
    trusted := false, outputs := ["old output"] }

/-- A record with non-blank source text. -/
def recordCode : CellRecord :=
  { sourceText := "1+1", metadata := [], executionCount := some 1,
    trusted := false, outputs := [] }

/-!
Helper lemmas about the metadata store operations.
-/

theorem getField_removeKey (md : Metadata) (k : String) :
    DatastoreExt.getField (DatastoreExt.removeKey md k) k = none := by
  unfold DatastoreExt.getField DatastoreExt.removeKey
  rw [List.find?_eq_none.mpr]
  · rfl
  · intro x hx
    have h := (List.mem_filter.mp hx).2
    simpa using h

theorem getField_updateField (md : Metadata) (k : String) (v : Option JsonVal) :
    DatastoreExt.getField (DatastoreExt.updateField md k v) k = v := by
  cases v with
  | none => exact getField_removeKey md k
  | some x =>
    simp [DatastoreExt.updateField, DatastoreExt.getField, List.find?]

/-- The `readOnly` setter always leaves the view's flag equal to the
requested value. -/
theorem setReadOnly_readOnly (st : CellView) (md : Metadata) (v : Bool) :
    (Cell.setReadOnly st md v).1.readOnly = v := by
  unfold Cell.setReadOnly
  by_cases h : v = st.readOnly
  · simp [h]
  · simp only [beq_iff_eq, h, if_false]
    cases hs : st.syncEditable <;> simp

/-- C3: when the source text is blank (empty after trimming) or the session
has no active kernel, `CodeCell.execute` sets the execution count to null,
clears the outputs, submits nothing to the kernel, and returns undefined. -/
theorem c3_execute_early_exit (record : CellRecord) (view : CodeCellView)
    (kernelLive : Bool) (outcome : KernelOutcome) (stillCurrent : Bool)
    (h : isBlank record.sourceText = true ∨ kernelLive = false) :
    (CodeCell.execute record view kernelLive outcome stillCurrent).1.executionCount = none ∧
    (CodeCell.execute record view kernelLive outcome stillCurrent).1.outputs = [] ∧
    (∀ c, Event.kernelSubmit c ∉
      (CodeCell.execute record view kernelLive outcome stillCurrent).2.2.1) ∧
    (CodeCell.execute record view kernelLive outcome stillCurrent).2.2.2 =
      ExecuteResult.returnUndefined := by
  have hguard : (isBlank record.sourceText || !kernelLive) = true := by
    rcases h with h | h
    · simp [h]
    · simp [h]
  unfold CodeCell.execute
  simp [hguard]

/-- Witness for C3 at a concrete blank-source record. -/
theorem c3_execute_early_exit_witness :
    isBlank recordBlank.sourceText = true ∧
    ((CodeCell.execute recordBlank codeView0 true (KernelOutcome.reply (some 2)) true).1.executionCount = none ∧
    (CodeCell.execute recordBlank codeView0 true (KernelOutcome.reply (some 2)) true).1.outputs = [] ∧
    (∀ c, Event.kernelSubmit c ∉
      (CodeCell.execute recordBlank codeView0 true (KernelOutcome.reply (some 2)) true).2.2.1) ∧
    (CodeCell.execute recordBlank codeView0 true (KernelOutcome.reply (some 2)) true).2.2.2 =
      ExecuteResult.returnUndefined) :=
  ⟨by decide,
    c3_execute_early_exit recordBlank codeView0 true (KernelOutcome.reply (some 2)) true
      (Or.inl (by decide))⟩

/-- C4: `saveEditableState` uses the tri-state encoding — it leaves
metadata key `editable` holding `false` exactly when the cell is read-only
and removes the key when the cell is editable, so the value `true` is never
written; and `loadEditableState` yields a read-only view exactly when the
stored value is `false`. -/
theorem c4_editable_tristate (b : Bool) (md : Metadata) (st : CellView) :
    DatastoreExt.getField (Cell.saveEditableState b md).1 "editable" =
      (if b then some (JsonVal.bool false) else none) ∧
    ((Cell.loadEditableState st md).1.readOnly = true ↔
      DatastoreExt.getField md "editable" = some (JsonVal.bool false)) := by
  constructor
  · unfold Cell.saveEditableState
    cases b with
    | true =>
      by_cases h : DatastoreExt.getField md "editable" = some (JsonVal.bool false)
      · simp [h]
      · simp only [beq_iff_eq]
        simp [h, getField_updateField]
    | false =>
      by_cases h : DatastoreExt.getField md "editable" = none
      · simp [h]
      · simp only [beq_iff_eq]
        simp [h, getField_updateField]
  · unfold Cell.loadEditableState
    rw [setReadOnly_readOnly]
    simp

/-- C5: when the view's read-only state already matches the model
(`readOnly` with `editable = false`, or editable with the key absent),
`saveEditableState` performs zero store transactions and leaves the
metadata unchanged. -/
theorem c5_save_editable_noop (b : Bool) (md : Metadata)
    (h : (b = true ∧ DatastoreExt.getField md "editable" = some (JsonVal.bool false)) ∨
      (b = false ∧ DatastoreExt.getField md "editable" = none)) :
    (Cell.saveEditableState b md).1 = md ∧
    txnCount (Cell.saveEditableState b md).2 = 0 := by
  unfold Cell.saveEditableState
  rcases h with ⟨hb, hmd⟩ | ⟨hb, hmd⟩ <;> subst hb <;> simp [hmd, txnCount]

/-- Witness for C5 at a concrete read-only view already saved to the
model. -/
theorem c5_save_editable_noop_witness :
    (true = true ∧
      DatastoreExt.getField [("editable", JsonVal.bool false)] "editable" =
        some (JsonVal.bool false)) ∧
    ((Cell.saveEditableState true [("editable", JsonVal.bool false)]).1 =
      [("editable", JsonVal.bool false)] ∧
    txnCount (Cell.saveEditableState true [("editable", JsonVal.bool false)]).2 = 0) :=
  ⟨⟨rfl, by decide⟩,
    c5_save_editable_noop true [("editable", JsonVal.bool false)]
      (Or.inl ⟨rfl, by decide⟩)⟩

/-- The `outputHidden` setter always leaves the view's flag equal to the
requested value. -/
theorem setOutputHidden_outputHidden (st : CodeCellView) (v : Bool) :
    (CodeCell.setOutputHidden st v).outputHidden = v := by
  unfold CodeCell.setOutputHidden
  split
  · next h => exact beq_iff_eq.mp h
  · rfl

/-- C1 counterexample: on an execution rejected with message `Canceled`
while the captured future is still the output area's current one, the
prompt is reset to the empty string but the error is nevertheless rethrown
to the caller — the cancellation is not absorbed. -/
theorem c1_cancellation_rethrown_counterexample :
    (CodeCell.execute recordCode codeView0 true (KernelOutcome.error "Canceled") true).2.2.2 =
      ExecuteResult.throwErr "Canceled" ∧
    (CodeCell.execute recordCode codeView0 true (KernelOutcome.error "Canceled") true).2.1.base.prompt =
      "" := by decide

/-- C1 (amended): every error from the kernel transport, the recognized
cancellation included, propagates unchanged to the caller of `execute`; in
the recognized cancellation case with the captured future still current the
prompt is additionally reset to the empty string, and in every other error
case the prompt keeps the busy marker. -/
theorem c1_error_propagation (record : CellRecord) (view : CodeCellView)
    (msg : String) (stillCurrent : Bool)
    (h : isBlank record.sourceText = false) :
    (CodeCell.execute record view true (KernelOutcome.error msg) stillCurrent).2.2.2 =
      ExecuteResult.throwErr msg ∧
    (CodeCell.execute record view true (KernelOutcome.error msg) stillCurrent).2.1.base.prompt =
      (if msg = "Canceled" ∧ stillCurrent = true then "" else "*") := by
  unfold CodeCell.execute
  by_cases hm : msg = "Canceled" <;> cases stillCurrent <;> simp [h, hm]

/-- Witness for C1 (amended) at a concrete non-cancellation error. -/
theorem c1_error_propagation_witness :
    isBlank recordCode.sourceText = false ∧
    ((CodeCell.execute recordCode codeView0 true (KernelOutcome.error "Boom") true).2.2.2 =
      ExecuteResult.throwErr "Boom" ∧
    (CodeCell.execute recordCode codeView0 true (KernelOutcome.error "Boom") true).2.1.base.prompt =
      (if "Boom" = "Canceled" ∧ (true : Bool) = true then "" else "*")) :=
  ⟨by decide, c1_error_propagation recordCode codeView0 "Boom" true (by decide)⟩

/-- C2 counterexample: on a concrete successful run, the event trace of
`execute` shows the output reveal and the busy-prompt update happening as
widget view updates before the store transaction, and the single
pre-execution transaction contains only the execution-count reset and the
trusted-flag write — so not all pre-execution state changes happen inside
one store transaction. -/
theorem c2_transaction_scope_counterexample :
    (CodeCell.execute recordCode codeView0 true (KernelOutcome.reply (some 1)) true).2.2.1 =
      [Event.viewSetOutputHidden false, Event.viewSetPrompt "*",
        Event.txn [StoreOp.setExecutionCount none, StoreOp.setTrusted true],
        Event.kernelSubmit "1+1",
        Event.txn [StoreOp.setExecutionCount (some 1)]] := by decide

/-- C2 (amended): with non-blank source and a live kernel, before the
execution request is submitted the output is revealed and the prompt set to
the busy marker as widget view updates outside any store transaction, and
then the execution count is reset to null and the record marked trusted
inside one store transaction holding exactly those two writes; the trusted
flag is still set when the call finishes. -/
theorem c2_pre_execution_state (record : CellRecord) (view : CodeCellView)
    (outcome : KernelOutcome) (stillCurrent : Bool)
    (h : isBlank record.sourceText = false) :
    (CodeCell.execute record view true outcome stillCurrent).2.2.1.take 4 =
      [Event.viewSetOutputHidden false, Event.viewSetPrompt "*",
        Event.txn [StoreOp.setExecutionCount none, StoreOp.setTrusted true],
        Event.kernelSubmit record.sourceText] ∧
    (CodeCell.execute record view true outcome stillCurrent).2.1.outputHidden = false ∧
    (CodeCell.execute record view true outcome stillCurrent).1.trusted = true := by
  unfold CodeCell.execute
  cases outcome with
  | reply ec => simp [h, setOutputHidden_outputHidden]
  | error msg =>
    by_cases hm : (msg == "Canceled" && stillCurrent) = true <;>
      simp [h, hm, setOutputHidden_outputHidden]

/-- Witness for C2 (amended) at a concrete successful run. -/
theorem c2_pre_execution_state_witness :
    isBlank recordCode.sourceText = false ∧
    ((CodeCell.execute recordCode codeView0 true (KernelOutcome.reply (some 1)) true).2.2.1.take 4 =
      [Event.viewSetOutputHidden false, Event.viewSetPrompt "*",
        Event.txn [StoreOp.setExecutionCount none, StoreOp.setTrusted true],
        Event.kernelSubmit recordCode.sourceText] ∧
    (CodeCell.execute recordCode codeView0 true (KernelOutcome.reply (some 1)) true).2.1.outputHidden =
      false ∧
    (CodeCell.execute recordCode codeView0 true (KernelOutcome.reply (some 1)) true).1.trusted =
      true) :=
  ⟨by decide,
    c2_pre_execution_state recordCode codeView0 (KernelOutcome.reply (some 1)) true (by decide)⟩

/-- A base cell view with editable-state syncing enabled. -/
def cellViewSyncEditable : CellView := { cellView0 with syncEditable := true }

/-- Metadata in which an external edit has set `editable` to `false`. -/
def mdEditableFalse : Metadata := [("editable", JsonVal.bool false)]

/-- The change notification the store delivers for that edit: key
`editable` changed with new value `false`. -/
def changeEditableFalse : ChangeMap := [("editable", some (JsonVal.bool false))]

/-- C6: the metadata-change handler tests `args.current.editable` for
JavaScript truthiness, so the change that sets `editable` to `false` — the
only value the tri-state encoding ever stores — does not trigger a reload
even with `syncEditable` on: the view stays editable although a reload
would make it read-only. -/
theorem c6_metadata_change_editable_not_reloaded :
    changeTruthy changeEditableFalse "editable" = false ∧
    (Cell.onMetadataChanged cellViewSyncEditable mdEditableFalse changeEditableFalse).1.readOnly =
      false ∧
    (Cell.loadEditableState cellViewSyncEditable mdEditableFalse).1.readOnly = true := by decide

/-- C7: updating the rendered markdown input skips all render work when
the (placeholder-substituted) text equals the last-rendered text;
otherwise it renders the text as a `text/markdown` mime bundle, creating
the renderer only on first use; and the rendered text is never empty — an
empty source renders the fixed placeholder text. -/
theorem c7_markdown_render_pipeline (st : MarkdownRenderState) (s : String) :
    ((if s = "" then DEFAULT_MARKDOWN_TEXT else s) = st.prevText →
      MarkdownCell.updateRenderedInput st s = (st, RenderAction.skip)) ∧
    ((if s = "" then DEFAULT_MARKDOWN_TEXT else s) ≠ st.prevText →
      MarkdownCell.updateRenderedInput st s =
        ({ prevText := if s = "" then DEFAULT_MARKDOWN_TEXT else s, rendererCreated := true },
          RenderAction.render "text/markdown"
            (if s = "" then DEFAULT_MARKDOWN_TEXT else s) (!st.rendererCreated))) ∧
    (∀ m t c, (MarkdownCell.updateRenderedInput st s).2 = RenderAction.render m t c →
      t ≠ "") := by
  have htext : (if s = "" then DEFAULT_MARKDOWN_TEXT else s) ≠ "" := by
    by_cases hs : s = "" <;> simp [hs]
    decide
  refine ⟨fun h => ?_, fun h => ?_, fun m t c hr => ?_⟩
  · unfold MarkdownCell.updateRenderedInput
    simp [h]
  · unfold MarkdownCell.updateRenderedInput
    simp only [ne_eq, h, not_false_iff, if_true]
  · unfold MarkdownCell.updateRenderedInput at hr
    by_cases h : (if s = "" then DEFAULT_MARKDOWN_TEXT else s) = st.prevText
    · simp [h] at hr
    · simp only [ne_eq, h, not_false_iff, if_true] at hr
      have ht : t = (if s = "" then DEFAULT_MARKDOWN_TEXT else s) :=
        (RenderAction.render.injEq _ _ _ _ _ _ ▸ hr).2.1.symm
      rw [ht]
      exact htext

/-- Witness for C7: a skip on unchanged text and a placeholder render on
an empty source. -/
theorem c7_markdown_render_pipeline_witness :
    MarkdownCell.updateRenderedInput ⟨DEFAULT_MARKDOWN_TEXT, true⟩ "" =
      (⟨DEFAULT_MARKDOWN_TEXT, true⟩, RenderAction.skip) ∧
    MarkdownCell.updateRenderedInput ⟨"", false⟩ "" =
      (⟨DEFAULT_MARKDOWN_TEXT, true⟩,
        RenderAction.render "text/markdown" DEFAULT_MARKDOWN_TEXT true) :=
  ⟨(c7_markdown_render_pipeline ⟨DEFAULT_MARKDOWN_TEXT, true⟩ "").1 (by decide),
    (c7_markdown_render_pipeline ⟨"", false⟩ "").2.1 (by decide)⟩

/-- C8: toggling `inputHidden` twice returns the widget arrangement to its
original configuration, on base cells and on code cells alike: the
input-hidden flag is back to its original value, and the input widget is
attached with the placeholder detached exactly as that value dictates. -/
theorem c8_input_hidden_involution (st : CellView) (cst : CodeCellView) :
    ((Cell.setInputHidden (Cell.setInputHidden st (!st.inputHidden)) st.inputHidden).inputHidden =
        st.inputHidden ∧
      (Cell.setInputHidden (Cell.setInputHidden st (!st.inputHidden)) st.inputHidden).inputAttached =
        !st.inputHidden ∧
      (Cell.setInputHidden (Cell.setInputHidden st (!st.inputHidden)) st.inputHidden).placeholderAttached =
        st.inputHidden) ∧
    ((CodeCell.setInputHidden (CodeCell.setInputHidden cst (!cst.base.inputHidden))
          cst.base.inputHidden).base.inputHidden = cst.base.inputHidden ∧
      (CodeCell.setInputHidden (CodeCell.setInputHidden cst (!cst.base.inputHidden))
          cst.base.inputHidden).base.inputAttached = !cst.base.inputHidden ∧
      (CodeCell.setInputHidden (CodeCell.setInputHidden cst (!cst.base.inputHidden))
          cst.base.inputHidden).base.placeholderAttached = cst.base.inputHidden) := by
  constructor
  · cases h : st.inputHidden <;> simp [Cell.setInputHidden, h]
  · cases h : cst.base.inputHidden <;>
      simp [CodeCell.setInputHidden, Cell.setInputHidden, h]

/-- C9: the `CodeCell.handleInputHidden` cascade — showing the input
always reveals the output wrapper, and hiding the input leaves the output
wrapper hidden exactly when it was already hidden or the outputs are
currently hidden, so a visible output is never lost by collapsing only the
input. -/
theorem c9_handle_input_hidden_cascade (w o : Bool) :
    CodeCell.handleInputHidden false w o = false ∧
    (CodeCell.handleInputHidden true w o = true ↔ (w = true ∨ o = true)) := by
  cases w <;> cases o <;> decide

/-- A code cell view with scrolled-state syncing enabled and the outputs
scrolled. -/
def codeViewScrolledSync : CodeCellView :=
  { codeView0 with syncScrolled := true, outputsScrolled := true }

/-- Metadata holding the legacy value `"auto"` under key `scrolled`. -/
def mdScrolledAuto : Metadata := [("scrolled", JsonVal.str "auto")]

/-- C10 counterexample: with `syncScrolled` enabled, setting
`outputsScrolled` performs zero store transactions (nothing is persisted
under key `scrolled`), and loading from metadata holding the legacy value
`"auto"` leaves the scrolled view state `true` instead of normalizing it
to `false`. -/
theorem c10_scrolled_persistence_counterexample :
    txnCount (CodeCell.setOutputsScrolled codeViewScrolledSync true).2 = 0 ∧
    DatastoreExt.getField mdScrolledAuto "scrolled" = some (JsonVal.str "auto") ∧
    (CodeCell.loadScrolledState codeViewScrolledSync mdScrolledAuto).outputsScrolled =
      true := by decide

/-- C10 (amended): `outputsScrolled` is a pure view toggle even with
`syncScrolled` enabled — `saveScrolledState` and `loadScrolledState` have
commented-out bodies, so setting the flag records it in the view and writes
nothing to the store, and loading leaves the view unchanged whatever the
`scrolled` metadata holds. -/
theorem c10_scrolled_view_only (st : CodeCellView) (md : Metadata) (v : Bool)
    (h : st.syncScrolled = true) :
    (CodeCell.setOutputsScrolled st v).1.outputsScrolled = v ∧
    (CodeCell.setOutputsScrolled st v).2 = [] ∧
    CodeCell.loadScrolledState st md = st := by
  unfold CodeCell.setOutputsScrolled CodeCell.saveScrolledState CodeCell.loadScrolledState
  simp [h]

/-- Witness for C10 (amended) at a concrete synced view. -/
theorem c10_scrolled_view_only_witness :
    codeViewScrolledSync.syncScrolled = true ∧
    ((CodeCell.setOutputsScrolled codeViewScrolledSync false).1.outputsScrolled = false ∧
    (CodeCell.setOutputsScrolled codeViewScrolledSync false).2 = [] ∧
    CodeCell.loadScrolledState codeViewScrolledSync mdScrolledAuto = codeViewScrolledSync) :=
  ⟨by decide, c10_scrolled_view_only codeViewScrolledSync mdScrolledAuto false (by decide)⟩

end JupyterCells
